import Mathlib

/-!
Verification of the bubble-simulation core.

The development shallowly embeds the entity-simulation core of the
repository: the `Bubble` life/kill state machine, the Gold-bubble pairing
logic, the Virus targeting / underpopulation-suicide logic, the circular
collision geometry (`gapBetween`), the `ForceField` charge/discharge
model and the population-control spawn loop.

Conventions:
* JavaScript `number` is modelled by `ℚ` where the embedded code only
  uses field operations and comparisons, and by `ℝ` where it uses
  `Math.sqrt` / `Math.pow` with fractional exponents.
* Object references are modelled by indices into the renderer's bubble
  list; mutation is explicit state passing.
* Methods that mutate other bubbles (kill-on-contact, pair assignment)
  are modelled as functions returning the updated list.
-/

set_option maxHeartbeats 1000000

/-- `clamp` from `src/math` (identical in every generation):
`if (min !== null && val < min) return min; if (max !== null && val > max)
return max; return val;`. -/
def clamp {α : Type} [LinearOrder α] (val : α) (min? max? : Option α) : α :=
  match min? with
  | some m =>
    if val < m then m
    else
      match max? with
      | some M => if M < val then M else val
      | none => val
  | none =>
    match max? with
    | some M => if M < val then M else val
    | none => val

/-- `lerp(from, to, t) = from*(1-t) + to*t` from `src/math`. -/
def lerpFn {α : Type} [CommRing α] (a b t : α) : α :=
  (a * (1 - t)) + (b * t)

/-- `Math.sign`. -/
def signum (x : ℚ) : ℚ :=
  if x < 0 then -1 else if 0 < x then 1 else 0

/-- `Vec2` from `src/math`, rational-precision view (used by the embedded
code paths that involve only field operations: `norm2`, componentwise
add/sub/mul). -/
structure Vec2 where
  x : ℚ
  y : ℚ
deriving DecidableEq, Repr

instance : Inhabited Vec2 := ⟨⟨0, 0⟩⟩

/-- `Vec2.ZERO`. -/
def Vec2.zero : Vec2 := ⟨0, 0⟩

/-- `Vec2.add` (vector overload). -/
def Vec2.add (a b : Vec2) : Vec2 := ⟨a.x + b.x, a.y + b.y⟩

/-- `Vec2.sub` (vector overload). -/
def Vec2.sub (a b : Vec2) : Vec2 := ⟨a.x - b.x, a.y - b.y⟩

/-- `Vec2.mul` (scalar overload). -/
def Vec2.mulS (a : Vec2) (s : ℚ) : Vec2 := ⟨a.x * s, a.y * s⟩

/-- Modelled from the spec: `Vec2.norm2`, the squared Euclidean norm
(`src/math`'s newest generation is not under `src/`; the spec lists
"Euclidean norm and squared norm" among the `Vec2` operations). -/
def Vec2.norm2 (v : Vec2) : ℚ := v.x * v.x + v.y * v.y

/-- Modelled from the spec: `Vec2.eq(x, y)`, componentwise comparison
against a literal vector, used by the wall-kill handlers
(`reason.dir.eq(1, 0)` etc.). -/
def Vec2.eqc (v : Vec2) (a b : ℚ) : Prop := v.x = a ∧ v.y = b

instance (v : Vec2) (a b : ℚ) : Decidable (v.eqc a b) :=
  inferInstanceAs (Decidable (_ ∧ _))

/-- `BUBBLE_DYING_DURATION` from `src/config.ts` (the dying threshold `D`). -/
def BUBBLE_DYING_DURATION : ℚ := 1/2

/-- The closed set of bubble variants (the subclasses of `Bubble`),
used to model the `instanceof` tests in the kill policies. -/
inductive BKind where
  | normal
  | square
  | gold
  | blackhole
  | virus
  | antivirus
deriving DecidableEq, Repr

/-- `KillReason` from `src/bubble.ts`, parametric in the vector type so
the same taxonomy serves the rational and the real models.  The `bubble`
constructor carries the killer's variant tag (the kill policies only ever
apply `instanceof` tests to the carried reference). -/
inductive KillReason (V : Type) where
  | mouse
  | wall (dir : V)
  | bubble (kind : BKind)
  | antivirusRay
  | underpopulationSuicide
deriving DecidableEq

/-- The life/kill-protocol state of a `Bubble`
(`src/src/bubble.ts`, `src/unnamed/part_001`): the fields read or written
by `kill`, `isDead`, `isDying` and the variant kill overrides. -/
structure Bubble where
  remainingLife : ℚ
  closest : ℚ
  opacity : ℚ
  pos : Vec2
  targetVelocity : Vec2
  interpolatedRadius : ℚ
deriving DecidableEq, Repr

/-- `get radius()`: `clamp(this.interpolatedRadius, 0, null)`. -/
def Bubble.radius (b : Bubble) : ℚ :=
  clamp b.interpolatedRadius (some 0) none

/-- `isDead(): boolean { return this.remainingLife < 0; }`. -/
def Bubble.isDead (b : Bubble) : Prop := b.remainingLife < 0

instance (b : Bubble) : Decidable b.isDead :=
  inferInstanceAs (Decidable (_ < _))

/-- `isDying(): boolean { return this.remainingLife < cfg.BUBBLE_DYING_DURATION; }`. -/
def Bubble.isDying (b : Bubble) : Prop :=
  b.remainingLife < BUBBLE_DYING_DURATION

instance (b : Bubble) : Decidable b.isDying :=
  inferInstanceAs (Decidable (_ < _))

/-- `Bubble.kill` (`src/src/bubble.ts` lines 911-917, identical in
`src/unnamed/part_001` lines 251-257): a no-op while already dying,
otherwise clamps `remainingLife` to the dying threshold and raises
`closest` to 1 for bubble- and mouse-strikes. -/
def Bubble.kill (reason : KillReason Vec2) (b : Bubble) : Bubble :=
  if b.isDying then b
  else
    let b' : Bubble := { b with remainingLife := BUBBLE_DYING_DURATION }
    match reason with
    | .bubble _ => { b' with closest := 1 }
    | .mouse => { b' with closest := 1 }
    | _ => b'

/-- `GoldBubble.kill` from `src/src/bubbles/gold_bubble.ts` (lines
100-119): bubble-collision kills are vetoed unless the killer is Gold,
Virus, Blackhole or AntiVirus; wall hits reflect the target velocity on
top/bottom and clamp the position on left/right instead of killing; every
other reason falls through to `Bubble.kill`.  `w` is the canvas width. -/
def GoldBubble.kill (w : ℚ) (reason : KillReason Vec2) (b : Bubble) : Bubble :=
  match reason with
  | .bubble k =>
    if k = .gold ∨ k = .virus ∨ k = .blackhole ∨ k = .antivirus then
      Bubble.kill reason b
    else b
  | .wall dir =>
    let b1 :=
      if dir.x = 0 then
        { b with targetVelocity :=
            { b.targetVelocity with y := |b.targetVelocity.y| * signum (-dir.y) } }
      else b
    let b2 :=
      if dir.eqc 1 0 then { b1 with pos := { b1.pos with x := w - b1.radius } } else b1
    let b3 :=
      if dir.eqc (-1) 0 then { b2 with pos := { b2.pos with x := b2.radius } } else b2
    b3
  | _ => Bubble.kill reason b

/-- The pairing-relevant state of one `GoldBubble` in the renderer's
bubble list (`src/src/bubbles/gold_bubble.ts`): position, radius, the
dying flag and the `pair` back-reference (an index into the list;
`null` is `none`).  Non-gold entries of the renderer list are omitted:
`findPair` skips them (`!(bubble instanceof GoldBubble)`). -/
structure GoldPairB where
  pos : Vec2
  radius : ℚ
  dying : Bool
  pair : Option Nat
deriving DecidableEq, Repr

instance : Inhabited GoldPairB := ⟨⟨⟨0, 0⟩, 0, false, none⟩⟩

/-- Total indexing into the gold-bubble list. -/
def getB (bs : List GoldPairB) (i : Nat) : GoldPairB := bs.getD i default

/-- One iteration of the `for (const bubble of this.renderer.bubbles)`
loop of `GoldBubble.findPair` (`src/src/bubbles/gold_bubble.ts` lines
34-50), visiting index `j`: skip self, skip dying, skip out-of-range
(`norm2 > range**2`), and pair mutually with a candidate whose `pair` is
still `null`. -/
def goldFindPairVisit (range2 : ℚ) (i : Nat) (mePos : Vec2)
    (bs : List GoldPairB) (j : Nat) : List GoldPairB :=
  if j = i then bs
  else
    match bs.get? j with
    | none => bs
    | some bj =>
      if bj.dying then bs
      else if range2 < (bj.pos.sub mePos).norm2 then bs
      else if bj.pair = none then
        (bs.set i { getB bs i with pair := some j }).set j { bj with pair := some i }
      else bs

/-- The full scan loop of `findPair` (the loop has no `break`, so a
later candidate overwrites `this.pair`). -/
def goldFindPairLoop (range2 : ℚ) (i : Nat) (mePos : Vec2) :
    List Nat → List GoldPairB → List GoldPairB
  | [], bs => bs
  | j :: rest, bs =>
    goldFindPairLoop range2 i mePos rest (goldFindPairVisit range2 i mePos bs j)

/-- The unlink prologue of `findPair` (`src/src/bubbles/gold_bubble.ts`
lines 28-31): `this.pair.pair = null; this.pair = null;` when a pair is
set.  `me` is the entry at index `i`. -/
def goldFindPairClear (bs : List GoldPairB) (i : Nat) (me : GoldPairB) :
    List GoldPairB :=
  match me.pair with
  | none => bs
  | some j =>
    let bs' :=
      match bs.get? j with
      | some bj => bs.set j { bj with pair := none }
      | none => bs
    bs'.set i { getB bs' i with pair := none }

/-- `GoldBubble.findPair` (`src/src/bubbles/gold_bubble.ts` lines 27-51)
for the gold bubble at index `i`: unlink the current pair, then scan the
whole list in order.  `rangeCfg` models `cfg.GOLD_BUBBLE_RAY_RANGE` (the
constant's defining config generation is not under `src/`, so the value
is left as a parameter); the search range is `rangeCfg * this.radius`. -/
def goldFindPair (rangeCfg : ℚ) (bs : List GoldPairB) (i : Nat) : List GoldPairB :=
  match bs.get? i with
  | none => bs
  | some me =>
    let bs1 := goldFindPairClear bs i me
    let range := rangeCfg * me.radius
    goldFindPairLoop (range ^ 2) i me.pos (List.range bs.length) bs1

/-- The pair-maintenance slice of `GoldBubble.update`
(`src/src/bubbles/gold_bubble.ts` lines 58-71) for the bubble at index
`i`: a dying gold clears its pair; a live gold drops its pair when the
partner is dying, gone from the list, or no longer points back
(`this.pair.pair !== this`), and then runs `findPair` if unpaired.  The
physics in `super.update()` and the pairing spring force touch no `pair`
field and are projected out. -/
def goldPairStep (rangeCfg : ℚ) (bs : List GoldPairB) (i : Nat) : List GoldPairB :=
  match bs.get? i with
  | none => bs
  | some me =>
    if me.dying then bs.set i { me with pair := none }
    else
      let bs1 :=
        match me.pair with
        | none => bs
        | some j =>
          match bs.get? j with
          | none => bs.set i { me with pair := none }
          | some pj =>
            if pj.dying ∨ pj.pair ≠ some i then bs.set i { me with pair := none }
            else bs
      if (getB bs1 i).pair = none then goldFindPair rangeCfg bs1 i else bs1

/-- One frame of pair maintenance: the renderer updates the bubbles in
list order (`Renderer.updateEntities`), and each gold bubble's `update`
runs its pair maintenance. -/
def goldFrame (rangeCfg : ℚ) (bs : List GoldPairB) : List GoldPairB :=
  (List.range bs.length).foldl (goldPairStep rangeCfg) bs

/-- The symmetry claimed by the spec: for every two live gold bubbles,
`A.pair === B` iff `B.pair === A`. -/
def pairSymmetric (bs : List GoldPairB) : Prop :=
  ∀ i, i < bs.length → ∀ j, j < bs.length →
    ((getB bs i).pair = some j ↔ (getB bs j).pair = some i)

instance (bs : List GoldPairB) : Decidable (pairSymmetric bs) := by
  unfold pairSymmetric; infer_instance

/-- Three live, unpaired, non-overlapping gold bubbles: index 0 (small
radius, its range reaches nobody), index 1 (large radius, its range
reaches both others), index 2 (small radius).  All surface gaps are
positive, so no collision interferes, and all velocities are zero, so
positions are constant through the frame. -/
def cexGold : List GoldPairB :=
  [ { pos := ⟨0, 0⟩, radius := 1, dying := false, pair := none },
    { pos := ⟨15, 0⟩, radius := 10, dying := false, pair := none },
    { pos := ⟨30, 0⟩, radius := 1, dying := false, pair := none } ]

/-- One entry of the renderer's bubble list as scanned by
`VirusBubble.findNewTarget` (`src/src/bubbles/virus_bubble.ts` lines
34-66): variant tag, dying flag, velocity (its `norm2` is the slowness
score) and, for virus entries, their `currentTarget` index.  The
scanning virus itself is omitted from the list (the loop skips
`bubble === this`; its own `currentTarget` is `null` whenever
`findNewTarget` runs, so it never triggers the exclusivity test). -/
structure ScanB where
  kind : BKind
  dying : Bool
  velocity : Vec2
  currentTarget : Option Nat
deriving DecidableEq, Repr

instance : Inhabited ScanB := ⟨⟨.normal, false, ⟨0, 0⟩, none⟩⟩

/-- `this.renderer.bubbles.some(other => other instanceof VirusBubble &&
!other.isDying() && other.currentTarget === bubble)`. -/
def otherHasThisTarget (bs : List ScanB) (j : Nat) : Prop :=
  ∃ o ∈ bs, o.kind = .virus ∧ ¬o.dying ∧ o.currentTarget = some j

instance (bs : List ScanB) (j : Nat) : Decidable (otherHasThisTarget bs j) :=
  inferInstanceAs (Decidable (∃ _ ∈ _, _))

/-- The scan loop of `VirusBubble.findNewTarget`: fold over the indexed
list, tracking the best candidate and its score (`targetValue`, with
`none` standing for the initial `-Infinity`).  A candidate is skipped
when dying or blacklisted (`BlackholeBubble`, `VirusBubble`,
`AntiVirusBubble`); otherwise, when its score `-norm2(velocity)` beats
the current best, it is skipped if another live virus already targets it
and adopted otherwise. -/
def findNewTargetLoop (bs : List ScanB) :
    List (Nat × ScanB) → Option (Nat × ℚ) → Option (Nat × ℚ)
  | [], best => best
  | (j, b) :: rest, best =>
    let best' :=
      if b.dying then best
      else if b.kind = .blackhole ∨ b.kind = .virus ∨ b.kind = .antivirus then best
      else
        let value := -(b.velocity.norm2)
        if (match best with | none => true | some (_, tv) => decide (tv < value)) then
          if otherHasThisTarget bs j then best
          else some (j, value)
        else best
    findNewTargetLoop bs rest best'

/-- `VirusBubble.findNewTarget` (`src/src/bubbles/virus_bubble.ts` lines
34-66): index of the slowest eligible bubble, or `none`. -/
def findNewTarget (bs : List ScanB) : Option Nat :=
  (findNewTargetLoop bs bs.enum none).map (·.1)

/-- A bubble index that the spec counts as an *eligible target* for a
virus: live, not Blackhole/Virus/AntiVirus, and not already targeted by
another live virus. -/
def eligibleTarget (bs : List ScanB) (j : Nat) (b : ScanB) : Prop :=
  ¬b.dying
    ∧ ¬(b.kind = .blackhole ∨ b.kind = .virus ∨ b.kind = .antivirus)
    ∧ ¬otherHasThisTarget bs j

/-- The state of a `VirusBubble` touched by its targeting /
underpopulation-suicide logic. -/
structure VirusState where
  remainingLife : ℚ
  underpopulatedSince : ℚ
  currentTarget : Option Nat
deriving DecidableEq, Repr

/-- `VirusBubble.kill` for a non-wall, non-bubble reason
(`underpopulation_suicide` falls through both guards to `super.kill`),
projected to `VirusState`: a no-op while dying, else the dying clamp. -/
def VirusState.killSuicide (v : VirusState) : VirusState :=
  if v.remainingLife < BUBBLE_DYING_DURATION then v
  else { v with remainingLife := BUBBLE_DYING_DURATION }

/-- The target-selection and suicide slice of `VirusBubble.update`
(`src/src/bubbles/virus_bubble.ts` lines 68-94), together with the
`remainingLife -= dt` of `super.update()` (`src/unnamed/part_001`; the
decrement is skipped when dead).  `timeout` models
`cfg.UNDERPOPULATION_SUICIDE_AFTER`, whose defining config generation is
not under `src/`.  A dying current target is dropped; an unset target is
re-sought; with no target the underpopulation clock advances and, past
the timeout, the virus kills itself with the `underpopulation_suicide`
reason; with a target the clock resets (the chase branch additionally
writes `targetRotation`/`targetVelocity`, projected out). -/
def VirusBubble.updateSlice (timeout dt : ℚ) (bs : List ScanB) (v : VirusState) :
    VirusState :=
  let v1 :=
    if v.remainingLife < 0 then v
    else { v with remainingLife := v.remainingLife - dt }
  let v2 :=
    match v1.currentTarget with
    | some t => if (bs.getD t default).dying then { v1 with currentTarget := none } else v1
    | none => v1
  let v3 :=
    if v2.currentTarget = none then { v2 with currentTarget := findNewTarget bs } else v2
  if v3.currentTarget = none then
    let v4 := { v3 with underpopulatedSince := v3.underpopulatedSince + dt }
    if timeout < v4.underpopulatedSince then v4.killSuicide else v4
  else
    { v3 with underpopulatedSince := 0 }

/-- `Vec2` at real precision, for the code paths that use `Math.sqrt`
(`norm`) and fractional `Math.pow`. -/
structure RVec2 where
  x : ℝ
  y : ℝ

/-- `Vec2.ZERO`. -/
noncomputable def RVec2.zero : RVec2 := ⟨0, 0⟩

/-- `Vec2.add` (vector overload). -/
noncomputable def RVec2.add (a b : RVec2) : RVec2 := ⟨a.x + b.x, a.y + b.y⟩

/-- `Vec2.sub` (vector overload). -/
noncomputable def RVec2.sub (a b : RVec2) : RVec2 := ⟨a.x - b.x, a.y - b.y⟩

/-- `Vec2.mul` (scalar overload). -/
noncomputable def RVec2.mulS (a : RVec2) (s : ℝ) : RVec2 := ⟨a.x * s, a.y * s⟩

/-- `Vec2.div` (scalar overload). -/
noncomputable def RVec2.divS (a : RVec2) (s : ℝ) : RVec2 := ⟨a.x / s, a.y / s⟩

/-- `Vec2.lerp`: `this.clone().mul(1 - t).add(other.clone().mul(t))`. -/
noncomputable def RVec2.lerpV (a b : RVec2) (t : ℝ) : RVec2 :=
  (a.mulS (1 - t)).add (b.mulS t)

/-- `Vec2.norm`: `Math.sqrt(this.x * this.x + this.y * this.y)`. -/
noncomputable def RVec2.norm (v : RVec2) : ℝ :=
  Real.sqrt (v.x * v.x + v.y * v.y)

/-- `BUBBLE_DYING_DURATION` at real precision. -/
noncomputable def BUBBLE_DYING_DURATION_R : ℝ := 1/2

/-- A base (Normal) `Bubble` of the `src/src/bubble.ts` generation that
introduces `gapBetween` (lines 713-918): the full physical state
threaded through `update`. -/
structure CBubble where
  pos : RVec2
  velocity : RVec2
  targetVelocity : RVec2
  interpolatedRadius : ℝ
  targetRadius : ℝ
  remainingLife : ℝ
  opacity : ℝ
  closest : ℝ

/-- `get radius()`: `clamp(this.interpolatedRadius, 0, null)`. -/
noncomputable def CBubble.radius (b : CBubble) : ℝ :=
  clamp b.interpolatedRadius (some 0) none

/-- `get forceRadius()`: `this.radius / 2`. -/
noncomputable def CBubble.forceRadius (b : CBubble) : ℝ := b.radius / 2

/-- `isDead()`. -/
def CBubble.isDead (b : CBubble) : Prop := b.remainingLife < 0

noncomputable instance (b : CBubble) : Decidable b.isDead :=
  inferInstanceAs (Decidable (_ < _))

/-- `isDying()`. -/
noncomputable def CBubble.isDying (b : CBubble) : Prop :=
  b.remainingLife < BUBBLE_DYING_DURATION_R

noncomputable instance (b : CBubble) : Decidable b.isDying :=
  inferInstanceAs (Decidable (_ < _))

/-- `Bubble.kill` at real precision (`src/src/bubble.ts` lines 911-917). -/
noncomputable def CBubble.kill (reason : KillReason RVec2) (b : CBubble) : CBubble :=
  if b.isDying then b
  else
    let b' : CBubble := { b with remainingLife := BUBBLE_DYING_DURATION_R }
    match reason with
    | .bubble _ => { b' with closest := 1 }
    | .mouse => { b' with closest := 1 }
    | _ => b'

/-- `Bubble.distanceFromSurface` (`src/src/bubble.ts` lines 774-776):
`clamp(this.pos.clone().sub(pos).norm() - this.radius, 0, null)`. -/
noncomputable def CBubble.distanceFromSurface (b : CBubble) (pos : RVec2) : ℝ :=
  clamp ((b.pos.sub pos).norm - b.radius) (some 0) none

/-- `Bubble.gapBetween` (`src/src/bubble.ts` lines 778-791): surface gap
along the line of centers, `0` when the other's surface already reaches
this center. -/
noncomputable def CBubble.gapBetween (b other : CBubble) : ℝ :=
  let diff := other.pos.sub b.pos
  let dist := diff.norm
  let dir := diff.divS dist
  let a := other.distanceFromSurface b.pos
  if a ≤ 0 then 0
  else b.distanceFromSurface (b.pos.add (dir.mulS a))

/-- `Bubble.applyObjectForce` (`src/src/bubble.ts` lines 794-813):
returns `true` (contact) when the gap is non-positive; otherwise, inside
the summed force radius, bumps `closest` and applies the repulsive
impulse, returning `false`. -/
noncomputable def CBubble.applyObjectForce (b : CBubble) (dir : RVec2)
    (gap forceRadius forceMultiplier : ℝ) : Bool × CBubble :=
  if gap ≤ 0 then (true, b)
  else
    let sumedForceRadius := b.forceRadius + forceRadius
    if gap < sumedForceRadius then
      let closness := 1 - gap / sumedForceRadius
      let force := closness ^ 2 * forceMultiplier
      (false,
        { b with
            closest := max closness b.closest,
            velocity := b.velocity.add (dir.mulS force) })
    else (false, b)

/-- The `for (const bubble of this.renderer.bubbles)` body of
`Bubble.updateBubbleCollisions` (`src/src/bubble.ts` lines 834-851) for
a base bubble: skip dying neighbours, compute the gap, and on contact
kill both sides with mutual `bubble` reasons (no `break`: the loop
continues).  `others` is the renderer list without the updating bubble
itself (skipped by `bubble === this`); both bubbles here are base
(Normal) bubbles, so `forceMultiplierWith` is the baseline `10`. -/
noncomputable def updateBubbleCollisionsLoop :
    CBubble → List CBubble → CBubble × List CBubble
  | b, [] => (b, [])
  | b, o :: rest =>
    if o.isDying then
      let r := updateBubbleCollisionsLoop b rest
      (r.1, o :: r.2)
    else
      let diff := b.pos.sub o.pos
      let dist := diff.norm
      let dir := diff.divS dist
      let gap := b.gapBetween o
      let p := b.applyObjectForce dir gap o.forceRadius 10
      if p.1 then
        let o' := CBubble.kill (.bubble .normal) o
        let b' := CBubble.kill (.bubble .normal) p.2
        let r := updateBubbleCollisionsLoop b' rest
        (r.1, o' :: r.2)
      else
        let r := updateBubbleCollisionsLoop p.2 rest
        (r.1, o :: r.2)

/-- `Bubble.updateBubbleCollisions`: reset `closest` to 0, then the loop. -/
noncomputable def CBubble.updateBubbleCollisions (b : CBubble) (others : List CBubble) :
    CBubble × List CBubble :=
  updateBubbleCollisionsLoop { b with closest := 0 } others

/-- `Bubble.updateWallsCollisions` (`src/src/bubble.ts` lines 815-828):
four sequential boundary tests, each calling `kill` with the outward
wall normal. -/
noncomputable def CBubble.updateWallsCollisions (w h : ℝ) (b : CBubble) : CBubble :=
  let b1 := if h < b.pos.y + b.radius then CBubble.kill (.wall ⟨0, 1⟩) b else b
  let b2 := if b1.pos.y - b1.radius < 0 then CBubble.kill (.wall ⟨0, -1⟩) b1 else b1
  let b3 := if w < b2.pos.x + b2.radius then CBubble.kill (.wall ⟨1, 0⟩) b2 else b2
  let b4 := if b3.pos.x - b3.radius < 0 then CBubble.kill (.wall ⟨-1, 0⟩) b3 else b3
  b4

/-- `Bubble.update` (`src/src/bubble.ts` lines 861-888) for a base
bubble in a world `others` (the renderer list without the bubble itself):
no-op when dead; when dying, grow the radius multiplicatively and apply
the cubic fade; otherwise decrement life, interpolate radius (speed 10)
and velocity (speed 5), integrate the position, and run the wall and
bubble collision passes. -/
noncomputable def CBubble.update (w h dt : ℝ) (others : List CBubble) (b : CBubble) :
    CBubble × List CBubble :=
  if b.isDead then (b, others)
  else
    let b1 : CBubble := { b with remainingLife := b.remainingLife - dt }
    if b1.isDying then
      ({ b1 with
          interpolatedRadius := b1.interpolatedRadius * (1 + dt * 2),
          opacity := (b1.remainingLife / BUBBLE_DYING_DURATION_R) ^ 3 }, others)
    else
      let b2 : CBubble :=
        { b1 with interpolatedRadius :=
            lerpFn b1.interpolatedRadius b1.targetRadius (clamp (dt * 10) (some 0) (some 1)) }
      let b3 : CBubble :=
        { b2 with velocity :=
            RVec2.lerpV b2.velocity b2.targetVelocity (clamp (dt * 5) (some 0) (some 1)) }
      let b4 : CBubble := { b3 with pos := b3.pos.add (b3.velocity.mulS dt) }
      let b5 := CBubble.updateWallsCollisions w h b4
      CBubble.updateBubbleCollisions b5 others

/-- `FORCE_FIELD_DEFAULT_FORCE` from `src/src/config.ts`. -/
def FORCE_FIELD_DEFAULT_FORCE : ℝ := 1000

/-- `FORCE_FIELD_MAX_FORCE` from `src/src/config.ts`. -/
def FORCE_FIELD_MAX_FORCE : ℝ := 12000

/-- `FORCE_FIELD_FORCE_TO_DURATION_SCALE = 1 / 1_500` from `src/src/config.ts`. -/
noncomputable def FORCE_FIELD_FORCE_TO_DURATION_SCALE : ℝ := 1 / 1500

/-- `FORCE_FIELD_FORCE_TO_RADIUS_SCALE = 1 / 20` from `src/src/config.ts`. -/
noncomputable def FORCE_FIELD_FORCE_TO_RADIUS_SCALE : ℝ := 1 / 20

/-- The observable state of a `ForceField` (`src/unnamed/part_003`, the
generation matching `src/src/config.ts`): the discharge flag set by
`start()`, the private `#force`, the accumulated discharge `age`, and
the position. -/
structure ForceField where
  started : Bool
  force : ℝ
  age : ℝ
  pos : RVec2

/-- The `force` setter (`src/unnamed/part_003` lines 122-127, same guard
in `src/src/force_field.ts` lines 28-33): throws once discharge has
started, otherwise stores the value clamped to
`[0, FORCE_FIELD_MAX_FORCE]`. -/
noncomputable def ForceField.setForce (ff : ForceField) (n : ℝ) :
    Except String ForceField :=
  if ff.started then Except.error "Cannot change force after started"
  else Except.ok { ff with force := clamp n (some 0) (some FORCE_FIELD_MAX_FORCE) }

/-- `get duration()` (`src/unnamed/part_003` lines 161-163, and
`src/src/force_field.ts` lines 73-75 up to the constant):
`Math.pow(this.force * cfg.FORCE_FIELD_FORCE_TO_DURATION_SCALE, -0.8)`. -/
noncomputable def ForceField.duration (ff : ForceField) : ℝ :=
  (ff.force * FORCE_FIELD_FORCE_TO_DURATION_SCALE) ^ (-(4/5) : ℝ)

/-- `get opacity()`: `1` while charging, else `1 - age / duration`. -/
noncomputable def ForceField.opacity (ff : ForceField) : ℝ :=
  if ff.started then 1 - ff.age / ff.duration else 1

/-- `get radius()`: `force * scale` while charging, shrunk by
`(1 - opacity)` while discharging. -/
noncomputable def ForceField.radius (ff : ForceField) : ℝ :=
  let rad := ff.force * FORCE_FIELD_FORCE_TO_RADIUS_SCALE
  if ff.started then (1 - ff.opacity) * rad else rad

/-- `isDead()` (`src/unnamed/part_003` lines 129-131):
`this.age > this.duration`. -/
noncomputable def ForceField.isDead (ff : ForceField) : Prop :=
  ff.duration < ff.age

noncomputable instance (ff : ForceField) : Decidable ff.isDead :=
  inferInstanceAs (Decidable (_ < _))

/-- `getForceOn(bubble)` (`src/unnamed/part_003` lines 199-211): the
zero vector while charging; once started, an outward impulse of
magnitude `force^1.5 * opacity` on bubbles whose surface is within one
pixel of the field's radius, zero further away. -/
noncomputable def ForceField.getForceOn (ff : ForceField) (bubble : CBubble) : RVec2 :=
  if ff.started then
    let diff := ff.pos.sub bubble.pos
    let dist := diff.norm
    let dir := diff.divS dist
    let normalized_dist := clamp (dist - bubble.radius - ff.radius) (some 0) none
    if 1 < normalized_dist then RVec2.zero
    else (dir.mulS (-1)).mulS (ff.force ^ (3/2 : ℝ) * ff.opacity)
  else RVec2.zero

/-- The live (non-dying) bubble count of `Renderer.spawnBalls`
(`src/src/renderer.ts` lines 815-817):
`bubbles.reduce((count, b) => count + +!b.isDying(), 0)`. -/
noncomputable def countLive (bs : List CBubble) : ℕ :=
  bs.foldl (fun c b => c + if b.isDying then 0 else 1) 0

/-- `Renderer.trySpawnBall` (`src/src/renderer.ts` lines 805-812):
reject the candidate when its placement footprint overlaps any existing
bubble (`other.gapBetween(ball) <= 0`), otherwise push it. -/
noncomputable def trySpawnBall (bs : List CBubble) (ball : CBubble) :
    List CBubble × Bool :=
  if ∃ other ∈ bs, other.gapBetween ball ≤ 0 then (bs, false)
  else (bs ++ [ball], true)

/-- The `while (max_try > 0 && count < target)` loop of
`Renderer.spawnBalls` (`src/src/renderer.ts` lines 820-824).  The random
candidates produced by `createBubble` are modelled as an input stream
`cands`; the result carries the bubble list, the final count and the
number of loop iterations (placement attempts) performed. -/
noncomputable def spawnLoop (target : ℕ) :
    List CBubble → ℤ → ℕ → List CBubble → List CBubble × ℕ × ℕ
  | [], _, count, bs => (bs, count, 0)
  | c :: rest, maxTry, count, bs =>
    if 0 < maxTry ∧ count < target then
      let p := trySpawnBall bs c
      let r := spawnLoop target rest (maxTry - 1) (count + if p.2 then 1 else 0) p.1
      (r.1, r.2.1, r.2.2 + 1)
    else (bs, count, 0)

/-- `Renderer.spawnBalls` (`src/src/renderer.ts` lines 814-825): count
the live bubbles, set the retry budget `(target - count) * 2`, and run
the spawn loop. -/
noncomputable def spawnBalls (target : ℕ) (bs cands : List CBubble) :
    List CBubble × ℕ × ℕ :=
  let count := countLive bs
  spawnLoop target cands (((target : ℤ) - count) * 2) count bs

/-- A live bubble far from the dying threshold. -/
def bAliveQ : Bubble := ⟨100, 0, 1, ⟨0, 0⟩, ⟨0, 0⟩, 30⟩

/-- A bubble already in the dying state. -/
def bDyingQ : Bubble := ⟨1/4, 1, 1, ⟨0, 0⟩, ⟨0, 0⟩, 30⟩

/-- A dead bubble (`remainingLife < 0`). -/
def bDeadQ : Bubble := ⟨-1, 1, 0, ⟨0, 0⟩, ⟨0, 0⟩, 30⟩

/-- A live gold bubble, far from every wall, used to probe the mouse-kill
policy. -/
def goldCexB : Bubble := ⟨100, 0, 1, ⟨500, 500⟩, ⟨0, 120⟩, 30⟩

/-- Two live unpaired non-overlapping gold bubbles inside each other's
range (for `rangeCfg = 3`). -/
def w2Gold : List GoldPairB :=
  [ { pos := ⟨0, 0⟩, radius := 10, dying := false, pair := none },
    { pos := ⟨25, 0⟩, radius := 10, dying := false, pair := none } ]

/-- A virus far past the underpopulation timeout, with no target. -/
def vStarved : VirusState := ⟨100, 2, none⟩

/-- A discharging force field whose force makes `force * scale = 1`, so
`duration = 1^-0.8 = 1`, probed at `age = duration` exactly. -/
noncomputable def ffCex : ForceField := ⟨true, 1500, 1, ⟨0, 0⟩⟩

/-- A force field that has started discharging. -/
noncomputable def ffStartedEx : ForceField := ⟨true, 1000, 0, ⟨0, 0⟩⟩

/-- A force field still charging (`start()` not yet called). -/
noncomputable def ffChargingEx : ForceField := ⟨false, 500, 0, ⟨100, 100⟩⟩

/-- A normal bubble at rest and at its target radius 20. -/
noncomputable def caEx : CBubble :=
  ⟨⟨100, 100⟩, ⟨0, 0⟩, ⟨0, 0⟩, 20, 20, 100, 1, 0⟩

/-- A normal bubble at rest, radius 30, its center 50 = 20 + 30 away from
`caEx`'s. -/
noncomputable def cbEx : CBubble :=
  ⟨⟨150, 100⟩, ⟨0, 0⟩, ⟨0, 0⟩, 30, 30, 100, 1, 0⟩

/-- C1: for every bubble, `kill` while not yet dying sets `remainingLife`
to exactly the dying threshold `D = BUBBLE_DYING_DURATION`, and `kill`
while already dying is a complete no-op (it changes neither
`remainingLife` nor `closest` nor `opacity` nor any other field). -/
theorem kill_clamps_to_threshold_and_is_noop_when_dying
    (b : Bubble) (reason : KillReason Vec2) :
    (¬ b.isDying → (Bubble.kill reason b).remainingLife = BUBBLE_DYING_DURATION)
    ∧ (b.isDying → Bubble.kill reason b = b) := by
  constructor
  · intro h
    unfold Bubble.kill
    rw [if_neg h]
    cases reason <;> rfl
  · intro h
    unfold Bubble.kill
    rw [if_pos h]

/-- Witness for C1: a live bubble gets its life clamped to `1/2`; a dying
bubble is left untouched by a second `kill`. -/
theorem kill_clamps_to_threshold_and_is_noop_when_dying_witness :
    (¬ bAliveQ.isDying ∧ (Bubble.kill .mouse bAliveQ).remainingLife = BUBBLE_DYING_DURATION)
    ∧ (bDyingQ.isDying ∧ Bubble.kill (.bubble .normal) bDyingQ = bDyingQ) :=
  ⟨⟨by norm_num [Bubble.isDying, bAliveQ, BUBBLE_DYING_DURATION],
    (kill_clamps_to_threshold_and_is_noop_when_dying bAliveQ .mouse).1
      (by norm_num [Bubble.isDying, bAliveQ, BUBBLE_DYING_DURATION])⟩,
   ⟨by norm_num [Bubble.isDying, bDyingQ, BUBBLE_DYING_DURATION],
    (kill_clamps_to_threshold_and_is_noop_when_dying bDyingQ (.bubble .normal)).2
      (by norm_num [Bubble.isDying, bDyingQ, BUBBLE_DYING_DURATION])⟩⟩

/-- C9: `isDead` implies `isDying`: `remainingLife < 0` entails
`remainingLife < BUBBLE_DYING_DURATION = 1/2`, so the dead state is a
subset of the dying predicate. -/
theorem isDead_implies_isDying (b : Bubble) (h : b.isDead) : b.isDying := by
  unfold Bubble.isDead at h
  unfold Bubble.isDying BUBBLE_DYING_DURATION
  linarith

/-- Witness for C9 at a concrete dead bubble. -/
theorem isDead_implies_isDying_witness : bDeadQ.isDead ∧ bDeadQ.isDying :=
  ⟨by norm_num [Bubble.isDead, bDeadQ],
   isDead_implies_isDying bDeadQ (by norm_num [Bubble.isDead, bDeadQ])⟩

/-- Counterexample to C5: a live gold bubble killed with the mouse reason
is *not* immune — `GoldBubble.kill` has no mouse veto, so the kill falls
through to `Bubble.kill` and clamps `remainingLife` to the dying
threshold. -/
theorem gold_mouse_kill_not_vetoed :
    ¬ goldCexB.isDying
    ∧ goldCexB.remainingLife = 100
    ∧ (GoldBubble.kill 1000 .mouse goldCexB).remainingLife = BUBBLE_DYING_DURATION := by
  refine ⟨?_, rfl, ?_⟩
  · norm_num [Bubble.isDying, goldCexB, BUBBLE_DYING_DURATION]
  · simp only [GoldBubble.kill, Bubble.kill, Bubble.isDying, goldCexB, BUBBLE_DYING_DURATION]
    norm_num

/-- C5 (amended): the gold kill policy of
`src/src/bubbles/gold_bubble.ts`: a mouse kill *does* clamp the life to
the dying threshold; bubble-collision kills from Normal or Square
bubbles are vetoed outright; wall hits never change the life; collisions
with Gold, Virus, Blackhole or AntiVirus, and antivirus rays, clamp the
life to the dying threshold. -/
theorem gold_kill_policy (w : ℚ) (b : Bubble) (h : ¬ b.isDying) :
    (GoldBubble.kill w .mouse b).remainingLife = BUBBLE_DYING_DURATION
    ∧ (∀ k, k = BKind.normal ∨ k = BKind.square →
        GoldBubble.kill w (.bubble k) b = b)
    ∧ (∀ k, k = BKind.gold ∨ k = BKind.virus ∨ k = BKind.blackhole ∨ k = BKind.antivirus →
        (GoldBubble.kill w (.bubble k) b).remainingLife = BUBBLE_DYING_DURATION)
    ∧ (∀ dir, (GoldBubble.kill w (.wall dir) b).remainingLife = b.remainingLife)
    ∧ (GoldBubble.kill w .antivirusRay b).remainingLife = BUBBLE_DYING_DURATION := by
  have hkill : ∀ reason, (Bubble.kill reason b).remainingLife = BUBBLE_DYING_DURATION :=
    fun reason => (kill_clamps_to_threshold_and_is_noop_when_dying b reason).1 h
  refine ⟨hkill .mouse, ?_, ?_, ?_, hkill .antivirusRay⟩
  · intro k hk
    rcases hk with rfl | rfl <;> rfl
  · intro k hk
    rcases hk with rfl | rfl | rfl | rfl <;>
      simpa [GoldBubble.kill] using hkill (.bubble _)
  · intro dir
    unfold GoldBubble.kill
    dsimp only
    split <;> split <;> split <;> rfl

/-- Witness for C5 (amended), at a live gold bubble: a Normal-bubble
collision is vetoed (no state change at all). -/
theorem gold_kill_policy_witness :
    ¬ goldCexB.isDying ∧ GoldBubble.kill 800 (.bubble .normal) goldCexB = goldCexB :=
  have h : ¬ goldCexB.isDying := by
    norm_num [Bubble.isDying, goldCexB, BUBBLE_DYING_DURATION]
  ⟨h, (gold_kill_policy 800 goldCexB h).2.1 BKind.normal (Or.inl rfl)⟩

/-- C8: once `start()` has been called, every assignment to `force`
raises (`throw new Error("Cannot change force after started")`); no new
state is produced, so the stored force value is unchanged. -/
theorem force_setter_throws_after_start (ff : ForceField) (n : ℝ)
    (h : ff.started = true) :
    ff.setForce n = Except.error "Cannot change force after started" := by
  simp [ForceField.setForce, h]

/-- Witness for C8 at a concrete started force field. -/
theorem force_setter_throws_after_start_witness :
    ffStartedEx.started = true
    ∧ ffStartedEx.setForce 5 = Except.error "Cannot change force after started" :=
  ⟨rfl, force_setter_throws_after_start ffStartedEx 5 rfl⟩

/-- C10: a force field on which `start()` has not been called (charging
phase) exerts the zero impulse on every bubble. -/
theorem charging_forcefield_exerts_no_force (ff : ForceField) (b : CBubble)
    (h : ff.started = false) :
    ff.getForceOn b = RVec2.zero := by
  simp [ForceField.getForceOn, h]

/-- Witness for C10 at a concrete charging force field and bubble. -/
theorem charging_forcefield_exerts_no_force_witness :
    ffChargingEx.started = false ∧ ffChargingEx.getForceOn caEx = RVec2.zero :=
  ⟨rfl, charging_forcefield_exerts_no_force ffChargingEx caEx rfl⟩

/-- Counterexample to C4: at `age == duration` exactly, `isDead()` is
`false` — the code tests `age > duration` strictly — even though the
opacity has already reached 0.  Probed at force `1500`, where
`force * FORCE_FIELD_FORCE_TO_DURATION_SCALE = 1` and so `duration = 1`. -/
theorem forcefield_not_dead_at_exact_duration :
    ffCex.started = true
    ∧ ffCex.duration = 1
    ∧ ffCex.age = ffCex.duration
    ∧ ¬ ffCex.isDead
    ∧ ffCex.opacity = 0 := by
  have hd : ffCex.duration = 1 := by
    show ((1500 : ℝ) * FORCE_FIELD_FORCE_TO_DURATION_SCALE) ^ (-(4/5) : ℝ) = 1
    rw [show (1500 : ℝ) * FORCE_FIELD_FORCE_TO_DURATION_SCALE = 1 by
      unfold FORCE_FIELD_FORCE_TO_DURATION_SCALE; norm_num]
    exact Real.one_rpow _
  refine ⟨rfl, hd, ?_, ?_, ?_⟩
  · show (1 : ℝ) = ffCex.duration
    rw [hd]
  · show ¬ ffCex.duration < ffCex.age
    rw [hd]
    show ¬ (1 : ℝ) < 1
    norm_num
  · show (if (true : Bool) = true then 1 - (1 : ℝ) / ffCex.duration else 1) = 0
    rw [if_pos rfl, hd]
    norm_num

/-- C4 (amended): for a released (`started`) force field with positive
force, `duration = (force * scale)^-0.8`, the opacity reaches 0 at
`age == duration`, and `isDead()` holds exactly when `age > duration`
(strictly; at `age == duration` it is still false). -/
theorem forcefield_discharge_profile (ff : ForceField)
    (hs : ff.started = true) (hf : 0 < ff.force) :
    ff.duration = (ff.force * FORCE_FIELD_FORCE_TO_DURATION_SCALE) ^ (-(4/5) : ℝ)
    ∧ (ff.age = ff.duration → ff.opacity = 0)
    ∧ (ff.isDead ↔ ff.duration < ff.age) := by
  have hbase : 0 < ff.force * FORCE_FIELD_FORCE_TO_DURATION_SCALE := by
    unfold FORCE_FIELD_FORCE_TO_DURATION_SCALE
    positivity
  have hdur : 0 < ff.duration := Real.rpow_pos_of_pos hbase _
  refine ⟨rfl, ?_, Iff.rfl⟩
  intro hage
  unfold ForceField.opacity
  rw [hs, if_pos rfl, hage, div_self hdur.ne']
  norm_num

/-- Witness for C4 (amended) at the concrete force field `ffCex`. -/
theorem forcefield_discharge_profile_witness :
    ffCex.started = true
    ∧ (0 : ℝ) < ffCex.force
    ∧ (ffCex.duration
        = (ffCex.force * FORCE_FIELD_FORCE_TO_DURATION_SCALE) ^ (-(4/5) : ℝ)
      ∧ (ffCex.age = ffCex.duration → ffCex.opacity = 0)
      ∧ (ffCex.isDead ↔ ffCex.duration < ffCex.age)) :=
  ⟨rfl, by norm_num [ffCex],
   forcefield_discharge_profile ffCex rfl (by norm_num [ffCex])⟩

/-- When no list entry is an eligible target, the scan loop leaves the
initial `none` untouched. -/
theorem findNewTargetLoop_none (bs : List ScanB) (l : List (Nat × ScanB))
    (h : ∀ p ∈ l, ¬ eligibleTarget bs p.1 p.2) :
    findNewTargetLoop bs l none = none := by
  induction l with
  | nil => rfl
  | cons p rest ih =>
    obtain ⟨j, b⟩ := p
    have hhd := h (j, b) (by simp)
    have htl : ∀ q ∈ rest, ¬ eligibleTarget bs q.1 q.2 :=
      fun q hq => h q (by simp [hq])
    have hstep : findNewTargetLoop bs ((j, b) :: rest) none
        = findNewTargetLoop bs rest none := by
      by_cases hd : b.dying = true
      · simp only [findNewTargetLoop, hd]
        simp
      · by_cases hk : b.kind = .blackhole ∨ b.kind = .virus ∨ b.kind = .antivirus
        · simp only [findNewTargetLoop]
          simp [hd, hk]
        · have hoht : otherHasThisTarget bs j := by
            by_contra hno
            exact hhd ⟨by simpa using hd, hk, hno⟩
          simp only [findNewTargetLoop]
          simp [hd, hk, hoht]
    rw [hstep]
    exact ih htl

/-- `findNewTarget` returns `null` when no bubble is eligible. -/
theorem findNewTarget_none (bs : List ScanB)
    (h : ∀ p ∈ bs.enum, ¬ eligibleTarget bs p.1 p.2) :
    findNewTarget bs = none := by
  unfold findNewTarget
  rw [findNewTargetLoop_none bs _ h]
  rfl

/-- C6: a virus with no current target, no eligible target anywhere, and
an underpopulation clock already past the timeout, self-kills on its
next update: `remainingLife` is clamped to the dying threshold by the
`underpopulation_suicide` kill (the only kill in that branch), with no
pointer interaction involved anywhere in the update. -/
theorem virus_underpopulation_suicide
    (timeout dt : ℚ) (bs : List ScanB) (v : VirusState)
    (hdt : 0 ≤ dt)
    (htar : v.currentTarget = none)
    (hin : ∀ p ∈ bs.enum, ¬ eligibleTarget bs p.1 p.2)
    (htime : timeout < v.underpopulatedSince)
    (halive : BUBBLE_DYING_DURATION ≤ v.remainingLife - dt) :
    (VirusBubble.updateSlice timeout dt bs v).remainingLife = BUBBLE_DYING_DURATION
    ∧ (VirusBubble.updateSlice timeout dt bs v).currentTarget = none := by
  have hD : (0 : ℚ) < BUBBLE_DYING_DURATION := by norm_num [BUBBLE_DYING_DURATION]
  have hnotdead : ¬ v.remainingLife < 0 := by linarith
  have hfind := findNewTarget_none bs hin
  have htime' : timeout < v.underpopulatedSince + dt := by linarith
  have hnotdying : ¬ v.remainingLife - dt < BUBBLE_DYING_DURATION := not_lt.mpr halive
  unfold VirusBubble.updateSlice VirusState.killSuicide
  simp [hnotdead, htar, hfind, htime', hnotdying]

/-- Witness for C6: an empty world, timeout 1, clock at 2, `dt = 1/10`. -/
theorem virus_underpopulation_suicide_witness :
    vStarved.currentTarget = none
    ∧ (1 : ℚ) < vStarved.underpopulatedSince
    ∧ BUBBLE_DYING_DURATION ≤ vStarved.remainingLife - 1/10
    ∧ (VirusBubble.updateSlice 1 (1/10) [] vStarved).remainingLife = BUBBLE_DYING_DURATION :=
  ⟨rfl,
   by norm_num [vStarved],
   by norm_num [vStarved, BUBBLE_DYING_DURATION],
   (virus_underpopulation_suicide 1 (1/10) [] vStarved
      (by norm_num) rfl (by simp) (by norm_num [vStarved])
      (by norm_num [vStarved, BUBBLE_DYING_DURATION])).1⟩

/-- `trySpawnBall` grows the live count exactly when it reports success
(the candidate itself being live). -/
theorem trySpawnBall_count (bs : List CBubble) (c : CBubble) (hc : ¬ c.isDying) :
    countLive (trySpawnBall bs c).1
      = countLive bs + (if (trySpawnBall bs c).2 then 1 else 0) := by
  unfold trySpawnBall
  by_cases h : ∃ other ∈ bs, other.gapBetween c ≤ 0
  · simp [h]
  · simp [h, countLive, List.foldl_append, hc]

/-- Invariants of the spawn loop: the returned count is the live count
of the returned list; the count never exceeds `max count target`; the
number of attempts never exceeds the budget; and a loop entered at or
above target does nothing. -/
theorem spawnLoop_spec (target : ℕ) (cands : List CBubble) :
    ∀ (maxTry : ℤ) (count : ℕ) (bs : List CBubble),
      countLive bs = count → (∀ c ∈ cands, ¬ c.isDying) →
      countLive (spawnLoop target cands maxTry count bs).1
          = (spawnLoop target cands maxTry count bs).2.1
      ∧ (spawnLoop target cands maxTry count bs).2.1 ≤ max count target
      ∧ (spawnLoop target cands maxTry count bs).2.2 ≤ maxTry.toNat
      ∧ (target ≤ count → spawnLoop target cands maxTry count bs = (bs, count, 0)) := by
  induction cands with
  | nil =>
    intro maxTry count bs hc _
    exact ⟨hc, le_max_left _ _, by simp [spawnLoop], fun _ => rfl⟩
  | cons c rest ih =>
    intro maxTry count bs hc hl
    have hcnd : ¬ c.isDying := hl c (by simp)
    have hrest : ∀ x ∈ rest, ¬ x.isDying := fun x hx => hl x (by simp [hx])
    by_cases hcond : 0 < maxTry ∧ count < target
    · have hcount' : countLive (trySpawnBall bs c).1
          = count + (if (trySpawnBall bs c).2 then 1 else 0) := by
        rw [trySpawnBall_count bs c hcnd, hc]
      have hr := ih (maxTry - 1) (count + (if (trySpawnBall bs c).2 then 1 else 0))
        (trySpawnBall bs c).1 hcount' hrest
      have hstep : spawnLoop target (c :: rest) maxTry count bs
          = ((spawnLoop target rest (maxTry - 1)
                (count + (if (trySpawnBall bs c).2 then 1 else 0)) (trySpawnBall bs c).1).1,
             (spawnLoop target rest (maxTry - 1)
                (count + (if (trySpawnBall bs c).2 then 1 else 0)) (trySpawnBall bs c).1).2.1,
             (spawnLoop target rest (maxTry - 1)
                (count + (if (trySpawnBall bs c).2 then 1 else 0)) (trySpawnBall bs c).1).2.2 + 1) := by
        simp only [spawnLoop, if_pos hcond]
      have hi : (if (trySpawnBall bs c).2 then 1 else 0) ≤ 1 := by
        split <;> norm_num
      rw [hstep]
      dsimp only
      refine ⟨hr.1, ?_, ?_, ?_⟩
      · have h1 := hr.2.1
        have hlt := hcond.2
        have h2 : max (count + (if (trySpawnBall bs c).2 then 1 else 0)) target = target :=
          max_eq_right (by omega)
        rw [h2] at h1
        exact le_trans h1 (le_max_right _ _)
      · have := hr.2.2.1
        have h0 := hcond.1
        omega
      · intro hge
        exact absurd hcond.2 (not_lt.mpr hge)
    · have hstep : spawnLoop target (c :: rest) maxTry count bs = (bs, count, 0) := by
        simp only [spawnLoop, if_neg hcond]
      rw [hstep]
      exact ⟨hc, le_max_left _ _, by simp, fun _ => rfl⟩

/-- C7: `spawnBalls` with target `N` makes at most `2 * (N - count)`
placement attempts where `count` is the live (non-dying) bubble count at
the start; when the start count already meets the target the loop is a
no-op; the final count equals the live count of the final list and never
exceeds `max count N` — so the spawn loop never raises the live count
above `N`. -/
theorem spawnBalls_budget_and_cap (target : ℕ) (bs cands : List CBubble)
    (hl : ∀ c ∈ cands, ¬ c.isDying) :
    countLive (spawnBalls target bs cands).1 = (spawnBalls target bs cands).2.1
    ∧ (spawnBalls target bs cands).2.1 ≤ max (countLive bs) target
    ∧ (spawnBalls target bs cands).2.2 ≤ 2 * (target - countLive bs)
    ∧ (target ≤ countLive bs →
        spawnBalls target bs cands = (bs, countLive bs, 0)) := by
  have h := spawnLoop_spec target cands (((target : ℤ) - countLive bs) * 2)
    (countLive bs) bs rfl hl
  refine ⟨h.1, h.2.1, ?_, h.2.2.2⟩
  have hb := h.2.2.1
  show (spawnLoop target cands (((target : ℤ) - countLive bs) * 2)
      (countLive bs) bs).2.2 ≤ 2 * (target - countLive bs)
  omega

/-- Witness for C7: a target of 0 with an empty world and no candidates
makes zero attempts and leaves everything unchanged. -/
theorem spawnBalls_budget_and_cap_witness :
    countLive (spawnBalls 0 [] []).1 = (spawnBalls 0 [] []).2.1
    ∧ (spawnBalls 0 [] []).2.1 ≤ max (countLive []) 0
    ∧ (spawnBalls 0 [] []).2.2 ≤ 2 * (0 - countLive [])
    ∧ (0 ≤ countLive [] → spawnBalls 0 [] [] = ([], countLive [], 0)) :=
  spawnBalls_budget_and_cap 0 [] [] (by simp)

/-- `getB` through `get?`. -/
theorem getB_eq_get? (bs : List GoldPairB) (i : Nat) :
    getB bs i = (bs.get? i).getD default := rfl

/-- `getB` of a present entry. -/
theorem getB_of_get? (bs : List GoldPairB) (i : Nat) (b : GoldPairB)
    (h : bs.get? i = some b) : getB bs i = b := by
  rw [getB_eq_get?, h]
  rfl

/-- `getB` past the end. -/
theorem getB_len_le (bs : List GoldPairB) (i : Nat) (h : bs.length ≤ i) :
    getB bs i = default := by
  rw [getB_eq_get?, List.get?_len_le h]
  rfl

/-- `getB` of `set` at the written index. -/
theorem getB_set_self (bs : List GoldPairB) (i : Nat) (x : GoldPairB)
    (h : i < bs.length) : getB (bs.set i x) i = x := by
  rw [getB_eq_get?, List.get?_set_eq_of_lt x h]
  rfl

/-- `getB` of `set` elsewhere. -/
theorem getB_set_ne (bs : List GoldPairB) (i j : Nat) (x : GoldPairB)
    (h : i ≠ j) : getB (bs.set i x) j = getB bs j := by
  rw [getB_eq_get?, List.get?_set_ne x bs h, getB_eq_get?]

/-- `getB` at the searching index after a mutual pair assignment. -/
theorem getB_assign_self (bs : List GoldPairB) (i k : Nat) (x y : GoldPairB)
    (hki : k ≠ i) (hil : i < bs.length) :
    getB ((bs.set i x).set k y) i = x := by
  rw [getB_set_ne _ k i _ hki, getB_set_self _ _ _ hil]

/-- `getB` at the candidate index after a mutual pair assignment. -/
theorem getB_assign_other (bs : List GoldPairB) (i k : Nat) (x y : GoldPairB)
    (hkl : k < bs.length) :
    getB ((bs.set i x).set k y) k = y := by
  rw [getB_set_self]
  rw [List.length_set]
  exact hkl

/-- `getB` of `set` at an out-of-range index. -/
theorem getB_set_len_le (bs : List GoldPairB) (i : Nat) (x : GoldPairB)
    (h : bs.length ≤ i) : getB (bs.set i x) i = default := by
  apply getB_len_le
  rw [List.length_set]
  exact h

/-- One `findPair` loop iteration preserves the forward-mutuality
invariant: whenever the searching bubble `i` holds a pair reference, the
referenced bubble points back at `i`. -/
theorem goldFindPairVisit_inv (range2 : ℚ) (i k : Nat) (mePos : Vec2)
    (bs : List GoldPairB)
    (hinv : ∀ j, (getB bs i).pair = some j → (getB bs j).pair = some i) :
    ∀ j, (getB (goldFindPairVisit range2 i mePos bs k) i).pair = some j →
      (getB (goldFindPairVisit range2 i mePos bs k) j).pair = some i := by
  unfold goldFindPairVisit
  by_cases hk : k = i
  · simpa [hk] using hinv
  · rw [if_neg hk]
    cases hget : bs.get? k with
    | none => exact hinv
    | some bj =>
      by_cases hd : bj.dying = true
      · simpa [hd] using hinv
      · by_cases hr : range2 < (bj.pos.sub mePos).norm2
        · simpa [hd, hr] using hinv
        · by_cases hp : bj.pair = none
          · simp only [hd, hr, hp, Bool.false_eq_true, if_false, if_true, if_pos]
            intro j hj
            obtain ⟨hkl, -⟩ := List.get?_eq_some.mp hget
            by_cases hil : i < bs.length
            · rw [getB_assign_self bs i k _ _ hk hil] at hj
              have hjk : j = k := by simpa using hj.symm
              subst hjk
              rw [getB_assign_other bs i j _ _ hkl]
            · exfalso
              rw [getB_set_ne _ k i _ hk,
                getB_set_len_le bs i _ (le_of_not_lt hil)] at hj
              simp [default] at hj
          · simpa [hd, hr, hp] using hinv

/-- The whole `findPair` scan preserves forward mutuality. -/
theorem goldFindPairLoop_inv (range2 : ℚ) (i : Nat) (mePos : Vec2)
    (l : List Nat) :
    ∀ bs : List GoldPairB,
      (∀ j, (getB bs i).pair = some j → (getB bs j).pair = some i) →
      ∀ j, (getB (goldFindPairLoop range2 i mePos l bs) i).pair = some j →
        (getB (goldFindPairLoop range2 i mePos l bs) j).pair = some i := by
  induction l with
  | nil =>
    intro bs hinv
    simpa [goldFindPairLoop] using hinv
  | cons k rest ih =>
    intro bs hinv
    have hstep : goldFindPairLoop range2 i mePos (k :: rest) bs
        = goldFindPairLoop range2 i mePos rest (goldFindPairVisit range2 i mePos bs k) :=
      rfl
    rw [hstep]
    exact ih _ (goldFindPairVisit_inv range2 i k mePos bs hinv)

/-- After the unlink prologue, the searching bubble's own pair slot is
`null`. -/
theorem goldFindPairClear_self (bs : List GoldPairB) (i : Nat) (me : GoldPairB)
    (hme : bs.get? i = some me) :
    (getB (goldFindPairClear bs i me) i).pair = none := by
  obtain ⟨hil, -⟩ := List.get?_eq_some.mp hme
  unfold goldFindPairClear
  cases hp : me.pair with
  | none =>
    rw [getB_of_get? bs i me hme, hp]
  | some p =>
    cases hgp : bs.get? p with
    | none =>
      simp only [hgp]
      rw [getB_set_self _ _ _ hil]
    | some bp =>
      simp only [hgp]
      rw [getB_set_self]
      rw [List.length_set]
      exact hil

/-- C2 (amended): immediately after a gold bubble's own `findPair`
completes, its pair reference is mutual: if the searching bubble `i`
ends with `pair = some j` then bubble `j` ends with `pair = some i`.
(Frame-wide symmetry fails — see the counterexample: the loop has no
`break`, so candidates adopted and then abandoned in the same scan keep
a dangling one-directional reference.) -/
theorem goldFindPair_forward_mutual (rangeCfg : ℚ) (bs : List GoldPairB)
    (i j : Nat)
    (h : (getB (goldFindPair rangeCfg bs i) i).pair = some j) :
    (getB (goldFindPair rangeCfg bs i) j).pair = some i := by
  revert h
  unfold goldFindPair
  cases hget : bs.get? i with
  | none =>
    intro h
    exfalso
    rw [getB_eq_get?, hget] at h
    simp [default] at h
  | some me =>
    intro h
    refine goldFindPairLoop_inv _ i me.pos (List.range bs.length)
      (goldFindPairClear bs i me) ?_ j h
    intro x hx
    rw [goldFindPairClear_self bs i me hget] at hx
    exact absurd hx (by simp)

/-- Evaluation of one frame of pair maintenance on `cexGold`: bubble 0
(range 2) reaches nobody and stays unpaired at its own update; bubble 1
(range 20) then pairs with 0, immediately abandons it for 2 (the loop
has no `break`), leaving 0 dangling; bubble 2 keeps its mutual pair. -/
theorem goldFrame_cexGold_eval :
    goldFrame 2 cexGold
      = [ { pos := ⟨0, 0⟩, radius := 1, dying := false, pair := some 1 },
          { pos := ⟨15, 0⟩, radius := 10, dying := false, pair := some 2 },
          { pos := ⟨30, 0⟩, radius := 1, dying := false, pair := some 1 } ] := by
  have hrange : List.range 3 = [0, 1, 2] := rfl
  norm_num [goldFrame, cexGold, hrange, goldPairStep, goldFindPair,
    goldFindPairClear, goldFindPairLoop, goldFindPairVisit, getB,
    Vec2.sub, Vec2.norm2]
  simp

/-- Counterexample to C2: starting from three live gold bubbles with all
pair fields `null` (a symmetric state), one frame of updates ends with
bubble 0 pointing at bubble 1 while bubble 1 points at bubble 2 — a
dangling one-directional pair reference between live bubbles. -/
theorem gold_pairing_not_symmetric_after_frame :
    pairSymmetric cexGold
    ∧ (∀ b ∈ cexGold, b.dying = false)
    ∧ (getB (goldFrame 2 cexGold) 0).pair = some 1
    ∧ (getB (goldFrame 2 cexGold) 1).pair = some 2
    ∧ (∀ b ∈ goldFrame 2 cexGold, b.dying = false)
    ∧ ¬ pairSymmetric (goldFrame 2 cexGold) := by
  rw [goldFrame_cexGold_eval]
  refine ⟨by decide, ?_, by decide, by decide, ?_, by decide⟩
  · intro b hb
    simp only [cexGold, List.mem_cons, List.not_mem_nil, or_false] at hb
    rcases hb with rfl | rfl | rfl <;> rfl
  · intro b hb
    simp only [List.mem_cons, List.not_mem_nil, or_false] at hb
    rcases hb with rfl | rfl | rfl <;> rfl

/-- Evaluation of `findPair` for the two-bubble witness world: bubble 0
pairs with bubble 1 mutually. -/
theorem goldFindPair_w2Gold_eval :
    goldFindPair 3 w2Gold 0
      = [ { pos := ⟨0, 0⟩, radius := 10, dying := false, pair := some 1 },
          { pos := ⟨25, 0⟩, radius := 10, dying := false, pair := some 0 } ] := by
  have hrange : List.range 2 = [0, 1] := rfl
  norm_num [w2Gold, hrange, goldFindPair, goldFindPairClear,
    goldFindPairLoop, goldFindPairVisit, getB, Vec2.sub, Vec2.norm2]

/-- Witness for C2 (amended): in the two-bubble world, after bubble 0's
`findPair`, its pair is bubble 1, and the theorem yields the mutual
back-reference. -/
theorem goldFindPair_forward_mutual_witness :
    (getB (goldFindPair 3 w2Gold 0) 0).pair = some 1
    ∧ (getB (goldFindPair 3 w2Gold 0) 1).pair = some 0 :=
  have h : (getB (goldFindPair 3 w2Gold 0) 0).pair = some 1 := by
    rw [goldFindPair_w2Gold_eval]
    rfl
  ⟨h, goldFindPair_forward_mutual 3 w2Gold 0 1 h⟩

/-- `clamp` with only a lower bound is the identity above the bound. -/
theorem clamp_lo {α : Type} [LinearOrder α] (v m : α) (h : ¬ v < m) :
    clamp v (some m) none = v := by
  unfold clamp
  simp [h]

/-- `clamp` with only a lower bound returns the bound below it. -/
theorem clamp_lo_of_lt {α : Type} [LinearOrder α] (v m : α) (h : v < m) :
    clamp v (some m) none = m := by
  unfold clamp
  simp [h]

/-- A bubble's drawn radius is its interpolated radius when the latter
is non-negative. -/
theorem radius_of_nonneg (b : CBubble) (h : 0 ≤ b.interpolatedRadius) :
    b.radius = b.interpolatedRadius := by
  unfold CBubble.radius
  exact clamp_lo _ _ (not_lt.mpr h)

/-- `lerp` between equal endpoints is constant. -/
theorem lerpFn_self {α : Type} [CommRing α] (x t : α) : lerpFn x x t = x := by
  unfold lerpFn
  ring

/-- `Vec2.lerp` between zero vectors is zero. -/
theorem lerpV_zero (t : ℝ) : RVec2.lerpV ⟨0, 0⟩ ⟨0, 0⟩ t = (⟨0, 0⟩ : RVec2) := by
  unfold RVec2.lerpV RVec2.mulS RVec2.add
  simp

/-- Integrating a zero velocity leaves the position unchanged. -/
theorem add_mulS_zero (v : RVec2) (dt : ℝ) :
    v.add (RVec2.mulS ⟨0, 0⟩ dt) = v := by
  unfold RVec2.add RVec2.mulS
  simp

/-- A bubble strictly inside the canvas is untouched by the wall pass. -/
theorem updateWallsCollisions_id (w h : ℝ) (b : CBubble)
    (h1 : ¬ h < b.pos.y + b.radius) (h2 : ¬ b.pos.y - b.radius < 0)
    (h3 : ¬ w < b.pos.x + b.radius) (h4 : ¬ b.pos.x - b.radius < 0) :
    CBubble.updateWallsCollisions w h b = b := by
  unfold CBubble.updateWallsCollisions
  simp [h1, h2, h3, h4]

/-- `kill` with a bubble reason on a non-dying bubble: life clamped to
the threshold and `closest` raised to 1. -/
theorem killR_bubble (k : BKind) (b : CBubble) (h : ¬ b.isDying) :
    CBubble.kill (.bubble k) b
      = { b with remainingLife := BUBBLE_DYING_DURATION_R, closest := 1 } := by
  unfold CBubble.kill
  rw [if_neg h]

/-- Two circular bubbles whose centers are exactly the sum of their radii
apart have a surface gap of exactly zero. -/
theorem gapBetween_zero_of_touching (a b : CBubble)
    (hra : 0 < a.radius) (hrb : 0 ≤ b.radius)
    (hdist : (b.pos.sub a.pos).norm = a.radius + b.radius) :
    a.gapBetween b = 0 := by
  have hd : 0 < a.radius + b.radius := by linarith
  have hnn : 0 ≤ (b.pos.sub a.pos).x * (b.pos.sub a.pos).x
      + (b.pos.sub a.pos).y * (b.pos.sub a.pos).y := by
    have h1 := mul_self_nonneg (b.pos.sub a.pos).x
    have h2 := mul_self_nonneg (b.pos.sub a.pos).y
    linarith
  have hsq : (b.pos.sub a.pos).x * (b.pos.sub a.pos).x
      + (b.pos.sub a.pos).y * (b.pos.sub a.pos).y
      = (a.radius + b.radius) * (a.radius + b.radius) := by
    have h2 : (b.pos.sub a.pos).norm ^ 2 = (a.radius + b.radius) ^ 2 := by
      rw [hdist]
    unfold RVec2.norm at h2
    rw [Real.sq_sqrt hnn] at h2
    nlinarith [h2]
  have hsurf : b.distanceFromSurface a.pos = a.radius := by
    unfold CBubble.distanceFromSurface
    rw [hdist]
    have he : a.radius + b.radius - b.radius = a.radius := by ring
    rw [he]
    exact clamp_lo _ _ (not_lt.mpr hra.le)
  unfold CBubble.gapBetween
  dsimp only
  rw [hsurf, hdist]
  rw [if_neg (not_le.mpr hra)]
  have hptnorm : (a.pos.sub (a.pos.add
      (((b.pos.sub a.pos).divS (a.radius + b.radius)).mulS a.radius))).norm
      = a.radius := by
    have hsq' : (b.pos.x - a.pos.x) * (b.pos.x - a.pos.x)
        + (b.pos.y - a.pos.y) * (b.pos.y - a.pos.y)
        = (a.radius + b.radius) * (a.radius + b.radius) := by
      simpa [RVec2.sub] using hsq
    unfold RVec2.sub RVec2.add RVec2.divS RVec2.mulS RVec2.norm
    dsimp only
    conv_rhs => rw [← Real.sqrt_sq hra.le]
    congr 1
    field_simp
    linear_combination a.radius ^ 2 * hsq'
  unfold CBubble.distanceFromSurface
  rw [hptnorm]
  rw [sub_self]
  unfold clamp
  simp

/-- The collision pass of a bubble against a single live neighbour in
contact (`gap = 0`): both sides are killed with mutual `bubble`
reasons. -/
theorem updateBubbleCollisions_contact (b o : CBubble)
    (ho : ¬ o.isDying)
    (hgap : CBubble.gapBetween { b with closest := 0 } o = 0) :
    CBubble.updateBubbleCollisions b [o]
      = (CBubble.kill (.bubble .normal) { b with closest := 0 },
         [CBubble.kill (.bubble .normal) o]) := by
  unfold CBubble.updateBubbleCollisions updateBubbleCollisionsLoop
    CBubble.applyObjectForce
  rw [hgap]
  simp [ho, updateBubbleCollisionsLoop]

/-- C3: a Normal bubble at rest (zero velocity and target velocity, at
its target radius, strictly inside the canvas, still alive after the
frame's life decrement) whose center is exactly `r1 + r2` away from a
live neighbour's center — surface gap exactly zero — has its next
`update` kill both bubbles with mutual `bubble` reasons: both end with
`remainingLife` clamped to the dying threshold and `closest = 1`. -/
theorem touching_bubbles_mutual_kill (w h dt : ℝ) (a b : CBubble)
    (hnotdead : ¬ a.isDead)
    (hnotdying : ¬ (({ a with remainingLife := a.remainingLife - dt } : CBubble).isDying))
    (hv : a.velocity = ⟨0, 0⟩) (htv : a.targetVelocity = ⟨0, 0⟩)
    (hsteady : a.interpolatedRadius = a.targetRadius)
    (htr : 0 < a.targetRadius)
    (hbAlive : ¬ b.isDying)
    (hrb : 0 ≤ b.radius)
    (hw1 : ¬ h < a.pos.y + a.targetRadius) (hw2 : ¬ a.pos.y - a.targetRadius < 0)
    (hw3 : ¬ w < a.pos.x + a.targetRadius) (hw4 : ¬ a.pos.x - a.targetRadius < 0)
    (hdist : (b.pos.sub a.pos).norm = a.targetRadius + b.radius) :
    CBubble.update w h dt [b] a
      = ({ a with remainingLife := BUBBLE_DYING_DURATION_R, closest := 1 },
         [{ b with remainingLife := BUBBLE_DYING_DURATION_R, closest := 1 }]) := by
  obtain ⟨⟨ax, ay⟩, avel, atv, air, atr, arem, aop, acl⟩ := a
  dsimp only at hv htv hsteady htr hw1 hw2 hw3 hw4 hdist hnotdead hnotdying
  subst hv htv hsteady
  have hrad : ∀ (rem op cl : ℝ),
      CBubble.radius ⟨⟨ax, ay⟩, ⟨0, 0⟩, ⟨0, 0⟩, air, air, rem, op, cl⟩ = air :=
    fun rem op cl => radius_of_nonneg _ (le_of_lt htr)
  unfold CBubble.update
  rw [if_neg hnotdead]
  rw [if_neg hnotdying]
  dsimp only
  rw [lerpFn_self, lerpV_zero, add_mulS_zero]
  rw [updateWallsCollisions_id w h _
    (by rw [hrad]; exact hw1) (by rw [hrad]; exact hw2)
    (by rw [hrad]; exact hw3) (by rw [hrad]; exact hw4)]
  have hgap : CBubble.gapBetween
      ({ (⟨⟨ax, ay⟩, ⟨0, 0⟩, ⟨0, 0⟩, air, air, arem - dt, aop, acl⟩ : CBubble) with
          closest := 0 }) b = 0 := by
    apply gapBetween_zero_of_touching
    · rw [hrad]
      exact htr
    · exact hrb
    · rw [hrad]
      exact hdist
  rw [updateBubbleCollisions_contact _ b hbAlive hgap]
  rw [killR_bubble _ _ (by dsimp only [CBubble.isDying]; exact hnotdying),
    killR_bubble _ _ hbAlive]

/-- Witness for C3: bubbles of radii 20 and 30 with centers exactly 50
apart; the update kills both. -/
theorem touching_bubbles_mutual_kill_witness :
    (cbEx.pos.sub caEx.pos).norm = caEx.targetRadius + cbEx.radius
    ∧ CBubble.update 1000 1000 (1/10) [cbEx] caEx
      = ({ caEx with remainingLife := BUBBLE_DYING_DURATION_R, closest := 1 },
         [{ cbEx with remainingLife := BUBBLE_DYING_DURATION_R, closest := 1 }]) := by
  have hradb : cbEx.radius = 30 := by
    norm_num [CBubble.radius, cbEx, clamp]
  have hdist : (cbEx.pos.sub caEx.pos).norm = caEx.targetRadius + cbEx.radius := by
    rw [hradb]
    show Real.sqrt (((150 : ℝ) - 100) * (150 - 100) + (100 - 100) * (100 - 100))
      = 20 + 30
    rw [show ((150 : ℝ) - 100) * (150 - 100) + (100 - 100) * (100 - 100) = 50 ^ 2 by
      norm_num]
    rw [Real.sqrt_sq (by norm_num : (0 : ℝ) ≤ 50)]
    norm_num
  refine ⟨hdist, ?_⟩
  apply touching_bubbles_mutual_kill
  · norm_num [CBubble.isDead, caEx]
  · norm_num [CBubble.isDying, caEx, BUBBLE_DYING_DURATION_R]
  · rfl
  · rfl
  · rfl
  · norm_num [caEx]
  · norm_num [CBubble.isDying, cbEx, BUBBLE_DYING_DURATION_R]
  · rw [hradb]
    norm_num
  · norm_num [caEx]
  · norm_num [caEx]
  · norm_num [caEx]
  · norm_num [caEx]
  · exact hdist
